import Mathlib

/-!
# Verification of the `einkd-eotd` "Emoji of the Day" program

A shallow embedding, in Lean 4, of `eotd.py`: the polling loop
(`EmojiOfTheDay.run`), its sub-operations (`get_info`, `get_image`,
`display_emoji`, `_display_error`), the two window layouts built in
`__init__`, and the driver selection in the `__main__` block.

External collaborators (the HTTP client, the JSON decoder, the image codec,
the emoji name→character table, and the display drivers) are modelled as
oracles: each loop iteration is parameterised by the outcomes of its external
calls, and the backend interactions (`show` / `refresh`) are recorded as an
event trace.

Python exceptions are modelled by an explicit error type `PyErr`; a
`try/except SomeClass` in the source becomes a `match` that converts exactly
the constructors corresponding to `SomeClass` and re-raises the rest.
-/

/-! ## JSON values

`get_info` returns `resp.json()`, which may be any decoded JSON value, not
necessarily an object.  The mutual presentation (an object is an association
sequence of key/value pairs, an array is a sequence of values) lets equality
be derived; Python `dict` equality on JSON-decoded objects coincides with
structural equality of the association sequence for the canonical
(duplicate-free, fixed-order) representatives used here. -/

mutual

inductive Json
  | obj (kvs : JKvs)
  | arr (elems : JArr)
  | str (s : String)
  | num (n : Int)
  | jbool (b : Bool)
  | null
  deriving DecidableEq, Repr

inductive JKvs
  | nil
  | cons (k : String) (v : Json) (rest : JKvs)
  deriving DecidableEq, Repr

inductive JArr
  | nil
  | cons (v : Json) (rest : JArr)
  deriving DecidableEq, Repr

end

/-- Association lookup in a JSON object, i.e. Python `d[k]` succeeding. -/
def JKvs.lookup : JKvs → String → Option Json
  | .nil, _ => none
  | .cons k v rest, key => if k = key then some v else rest.lookup key

/-- Build an object from a list of pairs (readability helper for fixtures). -/
def Json.mkObj : List (String × Json) → Json
  | kvs => .obj (kvs.foldr (fun (p : String × Json) acc => JKvs.cons p.1 p.2 acc) .nil)

/-- Whether the decoded value is a JSON object (a Python `dict`). -/
def Json.isObj : Json → Bool
  | .obj _ => true
  | _ => false

/-- The message of the `TypeError` raised by Python when a non-`dict` JSON
value is subscripted with a string key, per value shape. -/
def Json.subscriptErrMsg : Json → String
  | .obj _ => ""
  | .arr _ => "list indices must be integers or slices, not str"
  | .str _ => "string indices must be integers"
  | .num _ => "'int' object is not subscriptable"
  | .jbool _ => "'bool' object is not subscriptable"
  | .null => "'NoneType' object is not subscriptable"

/-- Python `str()` of a JSON scalar (used when a value is interpolated into
an f-string or assigned to a text field). -/
def Json.pyStr : Json → String
  | .obj _ => "<dict>"
  | .arr _ => "<list>"
  | .str s => s
  | .num n => toString n
  | .jbool true => "True"
  | .jbool false => "False"
  | .null => "None"

/-! ## Python exceptions -/

/-- The exception kinds that can arise in `eotd.py`.

* `eotd` — the in-repo `EOTDException` (the only kind `run` catches);
* `keyError` — Python `KeyError` (dict subscript with an absent key);
* `typeError` — Python `TypeError` (string subscript of a non-dict value);
* `decodeError` — the image codec's failure from `Image.open` (e.g. PIL's
  `UnidentifiedImageError`), which is not an `EOTDException`;
* `runtimeError` / `nameError` — the `__main__` block's `RuntimeError` and
  Python's `NameError` for an unbound local. -/
inductive PyErr
  | eotd (msg : String)
  | keyError (key : String)
  | typeError (msg : String)
  | decodeError (msg : String)
  | runtimeError (msg : String)
  | nameError (name : String)
  deriving DecidableEq, Repr

/-- Whether the exception is the domain exception `EOTDException`, the only
class caught by `run`'s `except EOTDException` clause. -/
def PyErr.isEOTD : PyErr → Bool
  | .eotd _ => true
  | _ => false

/-- Python `str(e)` for the exception, as assigned to the error layout's
text component by `_display_error`. -/
def PyErr.pyStr : PyErr → String
  | .eotd msg => msg
  | .keyError key => "'" ++ key ++ "'"
  | .typeError msg => msg
  | .decodeError msg => msg
  | .runtimeError msg => msg
  | .nameError n => "name '" ++ n ++ "' is not defined"

/-- Python subscript `info[key]` with a string key: succeeds on an object
containing the key, raises `KeyError` on an object missing it, and raises
`TypeError` on every non-object JSON value. -/
def Json.subscript : Json → String → Except PyErr Json
  | .obj kvs, key =>
    match kvs.lookup key with
    | some v => .ok v
    | none => .error (.keyError key)
  | j, _ => .error (.typeError j.subscriptErrMsg)

/-! ## Images, components, windows (the `einkd` layout surface used here)

Pixel rendering is an external collaborator; an image is identified by an
opaque id, and `Window.draw` — a pure function of current component state
(spec §4.1) — is represented by the component state itself. -/

/-- A decoded image (`PIL.Image.Image`), identified opaquely. -/
structure Img where
  id : Nat
  deriving DecidableEq, Repr

/-- The placeholder `Image.new("1", (100, 100))` used at construction. -/
def placeholderImg : Img := ⟨0⟩

/-- A renderable component: `ImageComponent(name, cell_x, cell_y, image)` or
`TextComponent(name, cell_y, text)`, with exactly the constructor arguments
`eotd.py` passes. -/
inductive Component
  | image (name : String) (cellX cellY : Nat) (img : Img)
  | text (name : String) (cellY : Nat) (txt : String)
  deriving DecidableEq, Repr

/-- `einkd.gui.window.Window`: pixel dimensions plus the mapping from grid
position to component. -/
structure Window where
  width : Nat
  height : Nat
  components : List ((Nat × Nat) × Component)
  deriving DecidableEq, Repr

/-- Python `components[pos]`: the component stored under a grid position. -/
def findComp : List ((Nat × Nat) × Component) → (Nat × Nat) → Option Component
  | [], _ => none
  | pc :: rest, pos => if pc.1 = pos then some pc.2 else findComp rest pos

/-- Replace the component stored at `pos` by the result of `f` on it. -/
def Window.updateComp (w : Window) (pos : Nat × Nat) (f : Component → Component) :
    Window :=
  { w with
    components := w.components.map fun pc =>
      if pc.1 = pos then (pc.1, f pc.2) else pc }

/-- `self._layout.components[pos].image = img` — attribute assignment on the
component stored at `pos` (in `eotd.py` the positions used always hold an
`ImageComponent`). -/
def Window.setImage (w : Window) (pos : Nat × Nat) (img : Img) : Window :=
  w.updateComp pos fun c =>
    match c with
    | .image name cx cy _ => .image name cx cy img
    | c => c

/-- `self._layout.components[pos].text = s` — attribute assignment on the
component stored at `pos` (in `eotd.py` the positions used always hold a
`TextComponent`). -/
def Window.setText (w : Window) (pos : Nat × Nat) (s : String) : Window :=
  w.updateComp pos fun c =>
    match c with
    | .text name cy _ => .text name cy s
    | c => c

/-- The text held by the component at `pos`, when that component is a
`TextComponent`. -/
def Window.textAt (w : Window) (pos : Nat × Nat) : Option String :=
  match findComp w.components pos with
  | some (.text _ _ txt) => some txt
  | _ => none

/-- Whether the component stored at `pos` is a `TextComponent`. -/
def Window.isTextAt (w : Window) (pos : Nat × Nat) : Bool :=
  (w.textAt pos).isSome

/-- `Window.draw()`: composites all components into one bitmap.  The bitmap
is a pure function of the window's component state (spec §4.1), and pixel
rasterisation is external, so the composite is represented by that state. -/
def Window.draw (w : Window) : Window := w

/-- An observable call on the display backend. -/
inductive DispEvent
  | show (bitmap : Window)
  | refresh
  deriving DecidableEq, Repr

/-- Number of `show` calls in a backend trace. -/
def countShow (evs : List DispEvent) : Nat :=
  (evs.filter fun e => match e with | .show _ => true | .refresh => false).length

/-- Number of `refresh` calls in a backend trace. -/
def countRefresh (evs : List DispEvent) : Nat :=
  (evs.filter fun e => match e with | .show _ => false | .refresh => true).length

/-! ## The two layouts built in `EmojiOfTheDay.__init__` -/

/-- `self._layout`: three image components (`a`, `b`, `c`) and one text
component (`message`), at the positions and cell sizes of `__init__`. -/
def initLayout (width height : Nat) : Window :=
  { width := width
    height := height
    components :=
      [((0, 0), .image "a" 4 10 placeholderImg),
       ((4, 0), .image "b" 4 10 placeholderImg),
       ((8, 0), .image "c" 4 10 placeholderImg),
       ((0, 10), .text "message" 2 "")] }

/-- `self._error_layout`: the static heading and the mutable error
description at `(0, 6)`. -/
def initErrorLayout (width height : Nat) : Window :=
  { width := width
    height := height
    components :=
      [((0, 0), .text "message" 6 "An error occurred."),
       ((0, 6), .text "error" 6 "Unknown")] }

/-! ## `get_image` — Resolve Emoji Image -/

/-- The outcome the image CDN oracle assigns to one URL: whether the HTTP
request succeeds (`requests.get` raises no exception and
`resp.raise_for_status()` passes), whether `Image.open` can decode the body,
and the decoded image when it can. -/
structure HttpImgResp where
  httpOk : Bool
  decodes : Bool
  img : Img
  deriving DecidableEq, Repr

/-- The URL `get_image` requests.  The f-string at line 105 of `eotd.py` is
`f"https://emojicdn.elk.sh/{emoji_char}?style=apple"`: the `style` parameter
of `get_image` is in scope but the f-string hardcodes `apple`, so the built
URL does not depend on `style`. -/
def requestUrl (emoji_char : String) (style : String) : String :=
  "https://emojicdn.elk.sh/" ++ emoji_char ++ "?style=apple"

/-- Modelled from the spec: the image-source endpoint as §6 describes it — "a
single HTTP GET to a fixed templated endpoint taking a unicode character and
a style parameter" — i.e. parameterised by both the character and the style.
This is the documented intent of `get_image`'s `style` parameter, to be
compared against `requestUrl`, which embeds what the code actually builds. -/
def specRequestUrl (emoji_char : String) (style : String) : String :=
  "https://emojicdn.elk.sh/" ++ emoji_char ++ "?style=" ++ style

/-- Python `EMOJI_UNICODE_ENGLISH[emoji]` where `emoji` is an arbitrary JSON
value and the table maps string names to characters: a string key is looked
up; a list or dict key raises `TypeError: unhashable type`; any other
hashable non-string value is simply absent, raising `KeyError`. -/
def pyTableLookup (tbl : List (String × String)) (emoji : Json) :
    Except PyErr String :=
  match emoji with
  | .str s =>
    match tbl.lookup s with
    | some c => .ok c
    | none => .error (.keyError s)
  | .arr _ => .error (.typeError "unhashable type: 'list'")
  | .obj _ => .error (.typeError "unhashable type: 'dict'")
  | j => .error (.keyError j.pyStr)

/-- `EmojiOfTheDay.get_image(emoji, style="apple")`.

`tbl` is the external `EMOJI_UNICODE_ENGLISH` table and `net` the image CDN
oracle.  Mirrors the source:

1. table lookup, with `except KeyError` re-raised as
   `EOTDException(f"Unknown emoji: {emoji}")`;
2. `requests.get` on the built URL plus `raise_for_status`, with
   `except Exception` re-raised as `EOTDException("Error when contacting
   emoji API.")`;
3. `Image.open(resp.raw)` outside both `try` blocks, so a decoding failure
   raises the codec's own exception, not `EOTDException`. -/
def get_image (tbl : List (String × String)) (net : String → HttpImgResp)
    (emoji : Json) (style : String) : Except PyErr Img :=
  match pyTableLookup tbl emoji with
  | .error (.keyError _) => .error (.eotd ("Unknown emoji: " ++ emoji.pyStr))
  | .error e => .error e
  | .ok emoji_char =>
    let resp := net (requestUrl emoji_char style)
    if resp.httpOk then
      if resp.decodes then .ok resp.img
      else .error (.decodeError "cannot identify image file")
    else .error (.eotd "Error when contacting emoji API.")

/-! ## `get_info` — Fetch Info -/

/-- `EmojiOfTheDay.get_info()`.  The whole body sits in a
`try/except Exception` re-raised as `EOTDException("Unable to fetch from
API")`, so the oracle outcome is either a decoded JSON body (`some body`) or
any transport / HTTP-status / JSON-decode failure (`none`); no key
validation happens at this stage. -/
def get_info (fetched : Option Json) : Except PyErr Json :=
  match fetched with
  | some body => .ok body
  | none => .error (.eotd "Unable to fetch from API")

/-! ## `display_emoji` — Render Cycle -/

/-- The four subscripts `info["a"], info["b"], info["c"], info["message"]`,
evaluated left to right, stopping at the first exception. -/
def extractInfo (info : Json) : Except PyErr (Json × Json × Json × Json) :=
  match info.subscript "a" with
  | .error e => .error e
  | .ok a =>
    match info.subscript "b" with
    | .error e => .error e
    | .ok b =>
      match info.subscript "c" with
      | .error e => .error e
      | .ok c =>
        match info.subscript "message" with
        | .error e => .error e
        | .ok m => .ok (a, b, c, m)

/-- The `try/except KeyError` around the subscripts in `display_emoji`:
`KeyError` becomes `EOTDException("Unable to find all values in JSON.")`;
any other exception (notably `TypeError` from a non-dict body) is not caught
there and propagates unchanged. -/
def validateInfo (info : Json) : Except PyErr (Json × Json × Json × Json) :=
  match extractInfo info with
  | .error (.keyError _) => .error (.eotd "Unable to find all values in JSON.")
  | .error e => .error e
  | .ok v => .ok v

/-- The outcome of one `display_emoji` call: the layout as left behind
(component mutations up to the failure point persist on `self._layout`), the
backend calls made, and the Python result. -/
structure DEResult where
  layout : Window
  events : List DispEvent
  result : Except PyErr Unit
  deriving Repr

/-- `EmojiOfTheDay.display_emoji(info)`.  Mirrors the source order: validate
the four keys, then resolve and assign the three images one at a time (each
assignment happens as soon as its fetch returns), then assign the message
text, then `show(draw())` and `refresh()`. -/
def display_emoji (tbl : List (String × String)) (net : String → HttpImgResp)
    (layout : Window) (info : Json) : DEResult :=
  match validateInfo info with
  | .error e => ⟨layout, [], .error e⟩
  | .ok (a, b, c, m) =>
    match get_image tbl net a "apple" with
    | .error e => ⟨layout, [], .error e⟩
    | .ok ia =>
      let l1 := layout.setImage (0, 0) ia
      match get_image tbl net b "apple" with
      | .error e => ⟨l1, [], .error e⟩
      | .ok ib =>
        let l2 := l1.setImage (4, 0) ib
        match get_image tbl net c "apple" with
        | .error e => ⟨l2, [], .error e⟩
        | .ok ic =>
          let l3 := ((l2.setImage (8, 0) ic).setText (0, 10) m.pyStr)
          ⟨l3, [.show l3.draw, .refresh], .ok ()⟩

/-! ## `_display_error` — Render Error View -/

/-- `EmojiOfTheDay._display_error(e)`: assign `str(e)` to the error layout's
component at `(0, 6)`, then `show(draw())` and `refresh()`.  Returns the
updated error layout and the backend calls. -/
def display_error (e : PyErr) (errLayout : Window) : Window × List DispEvent :=
  let el := errLayout.setText (0, 6) e.pyStr
  (el, [.show el.draw, .refresh])

/-! ## The Agent loop (`EmojiOfTheDay.run`) -/

/-- The loop-carried state of `run`, plus the layouts it mutates through
`self`, plus a ghost observer `lastRendered` recording the most recent Info
Snapshot for which `display_emoji` completed successfully (the "last
successfully rendered" snapshot of the spec; it influences nothing). -/
structure AgentState where
  error : Bool
  info : Json
  layout : Window
  errLayout : Window
  lastRendered : Option Json
  deriving Repr

/-- The state at entry to the loop: `error = False`, `info = {}`, and the
two layouts as `__init__` built them. -/
def initState (width height : Nat) : AgentState :=
  { error := false
    info := .obj .nil
    layout := initLayout width height
    errLayout := initErrorLayout width height
    lastRendered := none }

/-- The external outcomes of one loop iteration: the Fetch Info outcome and
the image CDN's response per URL. -/
structure Oracle where
  fetch : Option Json
  net : String → HttpImgResp

/-- What one loop iteration did: the state carried to the next iteration,
the backend calls made (in order), the uncaught exception if one escaped the
`try/except EOTDException` (terminating the loop), and whether
`display_emoji` was invoked. -/
structure StepResult where
  state : AgentState
  events : List DispEvent
  crashed : Option PyErr
  rendered : Bool
  deriving Repr

/-- The body of `run`'s redraw branch after `info = new_info`, given the
outcome `r` of the `display_emoji(info)` call:

* success → `error = False` runs;
* `EOTDException` → caught; `_display_error` runs only when `error` was
  still `False`, after which `error = True`;
* any other exception → uncaught, the loop terminates.

In every case the reassigned `info` (= `new_info`) and `self._layout`
mutations persist. -/
def stepRender (st : AgentState) (new_info : Json) (r : DEResult) : StepResult :=
  match r.result with
  | .ok _ =>
    ⟨⟨false, new_info, r.layout, st.errLayout, some new_info⟩, r.events, none, true⟩
  | .error (.eotd m) =>
    if st.error then
      ⟨⟨true, new_info, r.layout, st.errLayout, st.lastRendered⟩, r.events, none, true⟩
    else
      let (el, evs) := display_error (.eotd m) st.errLayout
      ⟨⟨true, new_info, r.layout, el, st.lastRendered⟩, r.events ++ evs, none, true⟩
  | .error e =>
    ⟨⟨st.error, new_info, r.layout, st.errLayout, st.lastRendered⟩, r.events, some e, true⟩

/-- One iteration of `run`'s `while True` body (up to the `sleep`):

```python
try:
    new_info = self.get_info()
    if info != new_info or error:
        info = new_info
        self.display_emoji(info)
    error = False
except EOTDException as e:
    if not error:
        self._display_error(e)
        error = True
```

`get_info` only ever raises `EOTDException`, so its failure is always
caught; `display_emoji` may raise other kinds, handled by `stepRender`. -/
def step (tbl : List (String × String)) (st : AgentState) (o : Oracle) :
    StepResult :=
  match get_info o.fetch with
  | .error e =>
    if st.error then
      ⟨st, [], none, false⟩
    else
      let (el, evs) := display_error e st.errLayout
      ⟨{ st with error := true, errLayout := el }, evs, none, false⟩
  | .ok new_info =>
    if st.info ≠ new_info ∨ st.error = true then
      stepRender st new_info (display_emoji tbl o.net st.layout new_info)
    else
      ⟨{ st with error := false }, [], none, false⟩

/-! ## Driver selection (the `__main__` block) -/

/-- The display drivers the `__main__` block can construct. -/
inductive DriverKind
  | epd2in13bc
  | tkinter
  deriving DecidableEq, Repr

/-- The local bindings the selection block leaves behind.  The annotation
`driver: BaseDriver` declares `driver` without binding it, so each name is
`Option`-valued. -/
structure MainScope where
  driver : Option DriverKind
  driverr : Option DriverKind
  deriving DecidableEq, Repr

/-- Lines 185–194 of `eotd.py`: on `"epd2in13"` the construction is assigned
to `driverr` (as spelled in the source), on `"tk"` to `driver`; any other
value raises `RuntimeError("No driver defined.")`. -/
def selectDriver (display : String) : Except PyErr MainScope :=
  if display = "epd2in13" then
    .ok ⟨none, some .epd2in13bc⟩
  else if display = "tk" then
    .ok ⟨some .tkinter, none⟩
  else
    .error (.runtimeError "No driver defined.")

/-- Lines 185–199: driver selection followed by `with driver as epd`, which
reads the local `driver`; reading it unbound raises `NameError`.  Returns
the driver the Agent would run against. -/
def mainDriver (display : String) : Except PyErr DriverKind :=
  match selectDriver display with
  | .error e => .error e
  | .ok scope =>
    match scope.driver with
    | some d => .ok d
    | none => .error (.nameError "driver")

/-! ## Concrete fixtures -/

/-- A small fragment of the external `EMOJI_UNICODE_ENGLISH` table. -/
def tbl0 : List (String × String) :=
  [("grinning_face", "😀"), ("dog", "🐶"), ("pizza", "🍕")]

/-- CDN oracle: every request succeeds and decodes. -/
def netOK : String → HttpImgResp := fun _ => ⟨true, true, ⟨1⟩⟩

/-- CDN oracle: requests succeed (HTTP 200) but the body does not decode as
an image. -/
def netNoDecode : String → HttpImgResp := fun _ => ⟨true, false, ⟨1⟩⟩

/-- CDN oracle: every request fails at transport / HTTP-status level. -/
def netDown : String → HttpImgResp := fun _ => ⟨false, true, ⟨1⟩⟩

/-- A well-formed Info Snapshot. -/
def info0 : Json := Json.mkObj
  [("a", .str "dog"), ("b", .str "grinning_face"), ("c", .str "pizza"),
   ("message", .str "Happy Monday!")]

/-- An Info Snapshot missing the key `message`. -/
def infoMissingMessage : Json := Json.mkObj
  [("a", .str "dog"), ("b", .str "dog"), ("c", .str "pizza")]

/-- An Info Snapshot missing the key `a`. -/
def infoMissingA : Json := Json.mkObj
  [("b", .str "dog"), ("c", .str "pizza"), ("message", .str "hi")]

/-- The Agent state after one successful iteration rendering `info0`. -/
def stNormal : AgentState :=
  (step tbl0 (initState 400 200) ⟨some info0, netOK⟩).state

/-- The Agent state after a further iteration whose fetch failed (the error
view is now showing). -/
def stErrored : AgentState :=
  (step tbl0 stNormal ⟨none, netOK⟩).state

/-! ## Helper lemmas about `display_emoji`, `stepRender` and `step` -/

/-- A failed `display_emoji` call makes no backend calls. -/
theorem display_emoji_error_no_events (tbl : List (String × String))
    (net : String → HttpImgResp) (layout : Window) (info : Json) (e : PyErr)
    (h : (display_emoji tbl net layout info).result = .error e) :
    (display_emoji tbl net layout info).events = [] := by
  cases hv : validateInfo info with
  | error e' => simp [display_emoji, hv]
  | ok v =>
    obtain ⟨a, b, c, m⟩ := v
    cases h1 : get_image tbl net a "apple" with
    | error e1 => simp [display_emoji, hv, h1]
    | ok ia =>
      cases h2 : get_image tbl net b "apple" with
      | error e2 => simp [display_emoji, hv, h1, h2]
      | ok ib =>
        cases h3 : get_image tbl net c "apple" with
        | error e3 => simp [display_emoji, hv, h1, h2, h3]
        | ok ic => simp [display_emoji, hv, h1, h2, h3] at h

/-- A successful `display_emoji` call makes exactly the calls
`show(draw())` then `refresh()`, with the fully updated layout. -/
theorem display_emoji_ok_events (tbl : List (String × String))
    (net : String → HttpImgResp) (layout : Window) (info : Json)
    (h : (display_emoji tbl net layout info).result = .ok ()) :
    (display_emoji tbl net layout info).events =
      [.show (display_emoji tbl net layout info).layout.draw, .refresh] := by
  cases hv : validateInfo info with
  | error e' => simp [display_emoji, hv] at h
  | ok v =>
    obtain ⟨a, b, c, m⟩ := v
    cases h1 : get_image tbl net a "apple" with
    | error e1 => simp [display_emoji, hv, h1] at h
    | ok ia =>
      cases h2 : get_image tbl net b "apple" with
      | error e2 => simp [display_emoji, hv, h1, h2] at h
      | ok ib =>
        cases h3 : get_image tbl net c "apple" with
        | error e3 => simp [display_emoji, hv, h1, h2, h3] at h
        | ok ic => simp [display_emoji, hv, h1, h2, h3]

/-- `stepRender` always means `display_emoji` was invoked. -/
theorem stepRender_rendered (st : AgentState) (ni : Json) (r : DEResult) :
    (stepRender st ni r).rendered = true := by
  obtain ⟨l, evs, res⟩ := r
  cases res with
  | ok u => rfl
  | error pe =>
    cases pe with
    | eotd m => cases hs : st.error <;> simp [stepRender, hs, display_error]
    | keyError k => rfl
    | typeError m => rfl
    | decodeError m => rfl
    | runtimeError m => rfl
    | nameError n => rfl

/-- Only a non-`EOTDException` exception can escape the redraw branch. -/
theorem stepRender_crashed_not_eotd (st : AgentState) (ni : Json)
    (r : DEResult) (e : PyErr)
    (h : (stepRender st ni r).crashed = some e) : e.isEOTD = false := by
  obtain ⟨l, evs, res⟩ := r
  cases res with
  | ok u => simp [stepRender] at h
  | error pe =>
    cases pe with
    | eotd m =>
      cases hs : st.error <;> simp [stepRender, hs, display_error] at h
    | keyError k =>
      simp [stepRender] at h; subst h; rfl
    | typeError m =>
      simp [stepRender] at h; subst h; rfl
    | decodeError m =>
      simp [stepRender] at h; subst h; rfl
    | runtimeError m =>
      simp [stepRender] at h; subst h; rfl
    | nameError n =>
      simp [stepRender] at h; subst h; rfl

/-- When the fetch succeeds and the info changed (or the error flag is set),
the iteration is exactly the redraw branch. -/
theorem step_fetch_ok_changed (tbl : List (String × String)) (st : AgentState)
    (o : Oracle) (j : Json) (hf : o.fetch = some j)
    (hc : st.info ≠ j ∨ st.error = true) :
    step tbl st o = stepRender st j (display_emoji tbl o.net st.layout j) := by
  unfold step
  rw [hf]
  simp only [get_info]
  rw [if_pos hc]

/-- When the fetch succeeds, the info is unchanged and the error flag is
clear, the iteration does nothing observable. -/
theorem step_fetch_ok_skip (tbl : List (String × String)) (st : AgentState)
    (o : Oracle) (j : Json) (hf : o.fetch = some j) (hi : st.info = j)
    (he : st.error = false) :
    step tbl st o = ⟨{ st with error := false }, [], none, false⟩ := by
  unfold step
  rw [hf]
  simp only [get_info]
  rw [if_neg]
  push_neg
  exact ⟨hi, by simp [he]⟩

/-- Subscripting any non-object JSON value raises `TypeError`. -/
theorem subscript_not_obj (j : Json) (k : String) (h : j.isObj = false) :
    j.subscript k = .error (.typeError j.subscriptErrMsg) := by
  cases j <;> simp_all [Json.isObj, Json.subscript]

/-- On a non-object body the key validation re-raises the `TypeError`
unchanged (it is not a `KeyError`, so the `except KeyError` does not fire). -/
theorem validateInfo_not_obj (j : Json) (h : j.isObj = false) :
    validateInfo j = .error (.typeError j.subscriptErrMsg) := by
  simp [validateInfo, extractInfo, subscript_not_obj j _ h]

/-- An object body missing one of the four required keys makes the
validation fail with the fixed `EOTDException` message. -/
theorem validateInfo_missing_key (kvs : JKvs)
    (h : kvs.lookup "a" = none ∨ kvs.lookup "b" = none ∨
      kvs.lookup "c" = none ∨ kvs.lookup "message" = none) :
    validateInfo (.obj kvs) =
      .error (.eotd "Unable to find all values in JSON.") := by
  cases ha : kvs.lookup "a" with
  | none => simp [validateInfo, extractInfo, Json.subscript, ha]
  | some va =>
    cases hb : kvs.lookup "b" with
    | none => simp [validateInfo, extractInfo, Json.subscript, ha, hb]
    | some vb =>
      cases hc : kvs.lookup "c" with
      | none => simp [validateInfo, extractInfo, Json.subscript, ha, hb, hc]
      | some vc =>
        cases hm : kvs.lookup "message" with
        | none =>
          simp [validateInfo, extractInfo, Json.subscript, ha, hb, hc, hm]
        | some vm => rcases h with h | h | h | h <;> simp_all

/-- `updateComp` acts pointwise on the component stored at the position. -/
theorem findComp_updateComp (w : Window) (pos : Nat × Nat)
    (f : Component → Component) :
    findComp (w.updateComp pos f).components pos
      = (findComp w.components pos).map f := by
  obtain ⟨wd, hg, comps⟩ := w
  simp only [Window.updateComp]
  induction comps with
  | nil => rfl
  | cons pc rest ih =>
    by_cases hp : pc.1 = pos
    · simp [findComp, hp]
    · simpa [findComp, hp] using ih

/-- Setting the text of a text component at a position makes that text
readable back at the position. -/
theorem textAt_setText (w : Window) (pos : Nat × Nat) (s : String)
    (h : w.isTextAt pos = true) :
    (w.setText pos s).textAt pos = some s := by
  unfold Window.isTextAt at h
  unfold Window.textAt at h ⊢
  unfold Window.setText
  rw [findComp_updateComp]
  cases hf : findComp w.components pos with
  | none => rw [hf] at h; simp at h
  | some c =>
    rw [hf] at h
    cases c with
    | image n cx cy im => simp at h
    | text n cy txt => simp

/-- Shape of the redraw branch when `display_emoji` succeeded. -/
theorem stepRender_ok (st : AgentState) (ni : Json) (r : DEResult)
    (h : r.result = .ok ()) :
    stepRender st ni r =
      ⟨⟨false, ni, r.layout, st.errLayout, some ni⟩, r.events, none, true⟩ := by
  obtain ⟨l, evs, res⟩ := r
  cases res with
  | ok u => rfl
  | error pe => simp at h

/-- Shape of the redraw branch when `display_emoji` raised `EOTDException`
and the error flag was still clear: the error view is rendered. -/
theorem stepRender_eotd_fresh (st : AgentState) (ni : Json) (r : DEResult)
    (m : String) (h : r.result = .error (.eotd m)) (he : st.error = false) :
    stepRender st ni r =
      ⟨⟨true, ni, r.layout, (display_error (.eotd m) st.errLayout).1,
          st.lastRendered⟩,
        r.events ++ (display_error (.eotd m) st.errLayout).2, none, true⟩ := by
  obtain ⟨l, evs, res⟩ := r
  cases res with
  | ok u => simp at h
  | error pe =>
    cases pe <;> simp_all [stepRender, display_error]

/-- Shape of the redraw branch when `display_emoji` raised `EOTDException`
while the error view was already showing: no further backend calls. -/
theorem stepRender_eotd_again (st : AgentState) (ni : Json) (r : DEResult)
    (m : String) (h : r.result = .error (.eotd m)) (he : st.error = true) :
    stepRender st ni r =
      ⟨⟨true, ni, r.layout, st.errLayout, st.lastRendered⟩,
        r.events, none, true⟩ := by
  obtain ⟨l, evs, res⟩ := r
  cases res with
  | ok u => simp at h
  | error pe =>
    cases pe <;> simp_all [stepRender]

/-- Shape of the redraw branch when `display_emoji` raised anything other
than `EOTDException`: the exception escapes the loop. -/
theorem stepRender_other (st : AgentState) (ni : Json) (r : DEResult)
    (e : PyErr) (h : r.result = .error e) (he : e.isEOTD = false) :
    stepRender st ni r =
      ⟨⟨st.error, ni, r.layout, st.errLayout, st.lastRendered⟩,
        r.events, some e, true⟩ := by
  obtain ⟨l, evs, res⟩ := r
  cases res with
  | ok u => simp at h
  | error pe =>
    injection h with h'
    subst h'
    cases pe with
    | eotd m => simp [PyErr.isEOTD] at he
    | keyError k => rfl
    | typeError m => rfl
    | decodeError m => rfl
    | runtimeError m => rfl
    | nameError n => rfl

/-! ## Claims -/

/-- C1 counterexample: a failure of image decoding after a successful image
fetch is NOT caught inside the loop body.  From the initial state, with a
well-formed snapshot and a CDN whose responses are HTTP-successful but do
not decode as images, the iteration ends with an uncaught exception
(`crashed` is set), terminating the loop, instead of proceeding to the next
iteration. -/
theorem decode_failure_escapes_loop :
    (step tbl0 (initState 400 200) ⟨some info0, netNoDecode⟩).crashed
      = some (.decodeError "cannot identify image file") := by rfl

/-- C1 (amended): when any iteration of the Agent loop ends with an uncaught
exception, that exception is never the domain exception `EOTDException` —
equivalently, every failure raised as `EOTDException` (fetch failures,
HTTP/transport errors during image fetch, unknown-emoji lookups, missing
JSON keys) is caught inside the loop body and the loop proceeds; only
non-domain exceptions, such as an image-decoding failure after a successful
image fetch, can escape and terminate the loop. -/
theorem only_non_domain_failures_escape_loop (tbl : List (String × String))
    (st : AgentState) (o : Oracle) (e : PyErr)
    (h : (step tbl st o).crashed = some e) : e.isEOTD = false := by
  unfold step at h
  cases hf : o.fetch with
  | none =>
    rw [hf] at h
    simp only [get_info] at h
    cases hse : st.error <;> simp [hse, display_error] at h
  | some body =>
    rw [hf] at h
    simp only [get_info] at h
    by_cases hc : st.info ≠ body ∨ st.error = true
    · rw [if_pos hc] at h
      exact stepRender_crashed_not_eotd _ _ _ _ h
    · rw [if_neg hc] at h
      simp at h

/-- C1 witness: the amended theorem applied at the concrete decode-failure
iteration. -/
theorem only_non_domain_failures_escape_loop_witness :
    (PyErr.decodeError "cannot identify image file").isEOTD = false :=
  only_non_domain_failures_escape_loop tbl0 (initState 400 200)
    ⟨some info0, netNoDecode⟩ _ (by rfl)

/-- C2 counterexample: the very first successful fetch does NOT
unconditionally count as changed info.  When it returns the empty mapping —
equal to the initial value of the stored snapshot — no redraw happens:
`display_emoji` is not invoked and no backend call is made. -/
theorem first_fetch_empty_no_redraw :
    (step tbl0 (initState 400 200) ⟨some (Json.obj .nil), netOK⟩).rendered
      = false ∧
    (step tbl0 (initState 400 200) ⟨some (Json.obj .nil), netOK⟩).events
      = [] := by
  decide

/-- C2 (amended): on the very first iteration, a successful fetch invokes
the Render Cycle exactly for the snapshots different from the empty
mapping: the stored previous snapshot is initialised to `{}`, so a first
snapshot equal to `{}` is treated as unchanged and skipped, and every other
first snapshot triggers a redraw. -/
theorem first_fetch_redraw_iff_nonempty (tbl : List (String × String))
    (w h : Nat) (net : String → HttpImgResp) (j : Json) :
    (step tbl (initState w h) ⟨some j, net⟩).rendered = true ↔
      j ≠ Json.obj .nil := by
  constructor
  · intro hr hj
    subst hj
    rw [step_fetch_ok_skip tbl _ _ _ rfl rfl rfl] at hr
    simp at hr
  · intro hj
    rw [step_fetch_ok_changed tbl _ _ j rfl (Or.inl (Ne.symm hj))]
    exact stepRender_rendered _ _ _

/-- C3: on the recognized flag value `epd2in13` the program does NOT run the
Agent against the physical panel driver: the constructed driver is assigned
to the misspelled local `driverr` (line 189), leaving `driver` unbound, so
`with driver as epd` raises `NameError` and the process dies before the
Agent starts.  The `tk` value (and default) does select the virtual window
driver. -/
theorem physical_flag_crashes_virtual_flag_runs :
    mainDriver "epd2in13" = .error (.nameError "driver") ∧
    mainDriver "tk" = .ok .tkinter :=
  ⟨rfl, rfl⟩

/-- C4: the image-source URL built by `get_image` is NOT parameterised by
the style argument: the f-string at line 105 hardcodes `style=apple`, so
passing the style `google` requests exactly the URL of the default style
and not the URL the documented template would give for `google`. -/
theorem style_argument_ignored_in_url :
    requestUrl "🐶" "google" = specRequestUrl "🐶" "apple" ∧
    requestUrl "🐶" "google" = requestUrl "🐶" "apple" ∧
    requestUrl "🐶" "google" ≠ specRequestUrl "🐶" "google" := by
  refine ⟨rfl, rfl, ?_⟩
  decide

/-- C6 counterexample: a successfully decoded JSON array body does not
become a caught validation failure: subscripting it raises `TypeError`,
which `run` does not catch, so the loop crashes and no error view is
shown. -/
theorem array_body_crashes_loop :
    (step tbl0 (initState 400 200) ⟨some (Json.arr .nil), netOK⟩).crashed
      = some (.typeError "list indices must be integers or slices, not str") ∧
    (step tbl0 (initState 400 200) ⟨some (Json.arr .nil), netOK⟩).events
      = [] := by
  decide

/-- C6 (amended): for every successfully decoded response body that is not
a JSON object (an array, a bare string, a number, a boolean or null), the
failure does occur at render time — the fetch itself succeeds — but as an
uncaught `TypeError` from the first subscript, which is not the domain
exception: the loop crashes without showing the error view, rather than
treating it as a cycle failure. -/
theorem non_object_body_uncaught_type_error (tbl : List (String × String))
    (st : AgentState) (o : Oracle) (j : Json) (hf : o.fetch = some j)
    (hobj : j.isObj = false) (hc : st.info ≠ j ∨ st.error = true) :
    (step tbl st o).crashed = some (.typeError j.subscriptErrMsg) ∧
    (step tbl st o).events = [] := by
  rw [step_fetch_ok_changed tbl st o j hf hc]
  have hd : (display_emoji tbl o.net st.layout j).result
      = .error (.typeError j.subscriptErrMsg) := by
    simp [display_emoji, validateInfo_not_obj j hobj]
  rw [stepRender_other st j _ _ hd (by rfl)]
  exact ⟨rfl, display_emoji_error_no_events tbl o.net st.layout j _ hd⟩

/-- C6 witness: the amended theorem at a bare-string body from the initial
state. -/
theorem non_object_body_uncaught_type_error_witness :
    (step tbl0 (initState 400 200) ⟨some (Json.str "oops"), netOK⟩).crashed
      = some (.typeError "string indices must be integers") ∧
    (step tbl0 (initState 400 200) ⟨some (Json.str "oops"), netOK⟩).events
      = [] :=
  non_object_body_uncaught_type_error tbl0 (initState 400 200)
    ⟨some (Json.str "oops"), netOK⟩ (Json.str "oops") rfl rfl
    (Or.inl (by decide))

/-- C9: whenever `display_emoji` fails — during key validation or during
resolution of any of the three emoji images — it makes no backend call at
all within that invocation: `show` and `refresh` sit after the last
assignment, so a partially resolved composite is never pushed. -/
theorem failed_render_makes_no_backend_calls (tbl : List (String × String))
    (net : String → HttpImgResp) (layout : Window) (info : Json) (e : PyErr)
    (h : (display_emoji tbl net layout info).result = .error e) :
    (display_emoji tbl net layout info).events = [] :=
  display_emoji_error_no_events tbl net layout info e h

/-- C9 witness: the theorem at a concrete failing render (image fetch
fails at transport level). -/
theorem failed_render_makes_no_backend_calls_witness :
    (display_emoji tbl0 netDown (initLayout 400 200) info0).events = [] :=
  failed_render_makes_no_backend_calls tbl0 netDown (initLayout 400 200) info0
    (.eotd "Error when contacting emoji API.") (by rfl)

/-- C10: the stored snapshot is advanced before rendering: in an iteration
whose fetch succeeds with changed info and whose render then fails (with
the caught domain exception), the carried state already holds the newly
fetched info — it is not rolled back — and the error flag is set, so the
recovery redraw of the next iteration is forced solely by the flag. -/
theorem snapshot_advanced_before_render (tbl : List (String × String))
    (st : AgentState) (o : Oracle) (j : Json) (m : String)
    (hf : o.fetch = some j) (hne : st.info ≠ j)
    (hd : (display_emoji tbl o.net st.layout j).result = .error (.eotd m)) :
    (step tbl st o).state.info = j ∧ (step tbl st o).state.error = true ∧
    (step tbl st o).crashed = none := by
  rw [step_fetch_ok_changed tbl st o j hf (Or.inl hne)]
  cases hse : st.error with
  | false =>
    rw [stepRender_eotd_fresh st j _ m hd hse]
    exact ⟨rfl, rfl, rfl⟩
  | true =>
    rw [stepRender_eotd_again st j _ m hd hse]
    exact ⟨rfl, rfl, rfl⟩

/-- C10 witness: the theorem at a concrete changed-info iteration whose
image fetches fail. -/
theorem snapshot_advanced_before_render_witness :
    (step tbl0 (initState 400 200) ⟨some info0, netDown⟩).state.info = info0 ∧
    (step tbl0 (initState 400 200) ⟨some info0, netDown⟩).state.error = true ∧
    (step tbl0 (initState 400 200) ⟨some info0, netDown⟩).crashed = none :=
  snapshot_advanced_before_render tbl0 (initState 400 200)
    ⟨some info0, netDown⟩ info0 "Error when contacting emoji API." rfl
    (by decide) (by rfl)

/-- A successful render trace has exactly one `show`. -/
theorem countShow_show_refresh (b : Window) : countShow [.show b, .refresh] = 1 := rfl

/-- A successful render trace has exactly one `refresh`. -/
theorem countRefresh_show_refresh (b : Window) :
    countRefresh [.show b, .refresh] = 1 := rfl

/-- C5 counterexample: the validation failure's description does not name
the missing data.  A snapshot missing `message` and a snapshot missing `a`
produce the identical fixed description "Unable to find all values in
JSON.", so the description cannot name the missing field (the field name is
only logged). -/
theorem validation_message_does_not_name_missing_key :
    (display_emoji tbl0 netOK (initLayout 400 200) infoMissingMessage).result
      = .error (.eotd "Unable to find all values in JSON.") ∧
    (display_emoji tbl0 netOK (initLayout 400 200) infoMissingA).result
      = .error (.eotd "Unable to find all values in JSON.") :=
  ⟨rfl, rfl⟩

/-- C5 (amended): for every Info Snapshot that is an object missing one or
more of the keys `a`, `b`, `c`, `message`, `display_emoji` fails with an
`EOTDException` carrying the fixed generic description "Unable to find all
values in JSON." (which does not name the missing field), the failure is
caught as a cycle failure, and the error view subsequently shown displays
exactly that fixed description. -/
theorem missing_key_shows_fixed_error_description (tbl : List (String × String))
    (st : AgentState) (o : Oracle) (kvs : JKvs)
    (hf : o.fetch = some (.obj kvs))
    (hmiss : kvs.lookup "a" = none ∨ kvs.lookup "b" = none ∨
      kvs.lookup "c" = none ∨ kvs.lookup "message" = none)
    (hne : st.info ≠ .obj kvs) (he : st.error = false)
    (ht : st.errLayout.isTextAt (0, 6) = true) :
    (step tbl st o).crashed = none ∧
    (step tbl st o).state.error = true ∧
    (step tbl st o).state.errLayout.textAt (0, 6)
      = some "Unable to find all values in JSON." ∧
    (step tbl st o).events
      = [.show ((step tbl st o).state.errLayout.draw), .refresh] := by
  rw [step_fetch_ok_changed tbl st o _ hf (Or.inl hne)]
  have hd : (display_emoji tbl o.net st.layout (.obj kvs)).result
      = .error (.eotd "Unable to find all values in JSON.") := by
    simp [display_emoji, validateInfo_missing_key kvs hmiss]
  have hev := display_emoji_error_no_events tbl o.net st.layout (.obj kvs) _ hd
  rw [stepRender_eotd_fresh st _ _ _ hd he]
  refine ⟨rfl, rfl, ?_, ?_⟩
  · show ((display_error (.eotd "Unable to find all values in JSON.")
      st.errLayout).1).textAt (0, 6) = _
    simp only [display_error, PyErr.pyStr]
    exact textAt_setText st.errLayout (0, 6) _ ht
  · simp [display_error, hev]

/-- C5 witness: the amended theorem at a concrete snapshot missing
`message`, from the initial state. -/
theorem missing_key_shows_fixed_error_description_witness :
    (step tbl0 (initState 400 200) ⟨some infoMissingMessage, netOK⟩).crashed
      = none ∧
    (step tbl0 (initState 400 200)
      ⟨some infoMissingMessage, netOK⟩).state.error = true ∧
    (step tbl0 (initState 400 200)
      ⟨some infoMissingMessage, netOK⟩).state.errLayout.textAt (0, 6)
      = some "Unable to find all values in JSON." ∧
    (step tbl0 (initState 400 200) ⟨some infoMissingMessage, netOK⟩).events
      = [.show ((step tbl0 (initState 400 200)
          ⟨some infoMissingMessage, netOK⟩).state.errLayout.draw), .refresh] :=
  missing_key_shows_fixed_error_description tbl0 (initState 400 200)
    ⟨some infoMissingMessage, netOK⟩
    (.cons "a" (.str "dog") (.cons "b" (.str "dog")
      (.cons "c" (.str "pizza") .nil)))
    rfl (by decide) (by decide) rfl (by decide)

/-- C7: recovery forces a redraw.  After an iteration that failed from the
NORMAL state (so the error view was shown and the error flag set), a next
iteration whose fetch succeeds with info equal to the last successfully
rendered snapshot — and equal to the stored snapshot — still invokes
`display_emoji`, producing exactly one `show` and one `refresh`, because
`or error` makes the redraw condition true despite the content equality. -/
theorem recovery_forces_redraw (tbl : List (String × String))
    (st : AgentState) (o1 o2 : Oracle) (j : Json)
    (h0 : st.error = false)
    (hc1 : (step tbl st o1).crashed = none)
    (he1 : (step tbl st o1).state.error = true)
    (hf2 : o2.fetch = some j)
    (hlr : (step tbl st o1).state.lastRendered = some j)
    (heq : (step tbl st o1).state.info = j)
    (hd : (display_emoji tbl o2.net (step tbl st o1).state.layout j).result
      = .ok ()) :
    (step tbl (step tbl st o1).state o2).rendered = true ∧
    countShow (step tbl (step tbl st o1).state o2).events = 1 ∧
    countRefresh (step tbl (step tbl st o1).state o2).events = 1 := by
  rw [step_fetch_ok_changed tbl _ o2 j hf2 (Or.inr he1)]
  rw [stepRender_ok _ _ _ hd]
  rw [display_emoji_ok_events tbl o2.net _ j hd]
  exact ⟨rfl, countShow_show_refresh _, countRefresh_show_refresh _⟩

/-- C7 witness: the theorem at the concrete run "render `info0`, then a
failed fetch, then a successful fetch of `info0` again". -/
theorem recovery_forces_redraw_witness :
    (step tbl0 stErrored ⟨some info0, netOK⟩).rendered = true ∧
    countShow (step tbl0 stErrored ⟨some info0, netOK⟩).events = 1 ∧
    countRefresh (step tbl0 stErrored ⟨some info0, netOK⟩).events = 1 :=
  recovery_forces_redraw tbl0 stNormal ⟨none, netOK⟩ ⟨some info0, netOK⟩ info0
    (by rfl) (by rfl) (by rfl) rfl (by rfl) (by rfl) (by rfl)

/-- C8 counterexample: a pair of consecutive iterations, both entered in the
NORMAL state and both fetching the same Info Snapshot, need not see one
`show`/`refresh` during its first iteration: if that snapshot was already
rendered before the pair began, neither iteration makes any backend call
(zero, not exactly one). -/
theorem identical_pair_can_have_zero_redraws :
    stNormal.error = false ∧
    (step tbl0 stNormal ⟨some info0, netOK⟩).state.error = false ∧
    (step tbl0 stNormal ⟨some info0, netOK⟩).events = [] ∧
    (step tbl0 (step tbl0 stNormal ⟨some info0, netOK⟩).state
      ⟨some info0, netOK⟩).events = [] ∧
    countShow (step tbl0 stNormal ⟨some info0, netOK⟩).events +
      countShow (step tbl0 (step tbl0 stNormal ⟨some info0, netOK⟩).state
        ⟨some info0, netOK⟩).events = 0 := by
  decide

/-- C8 (amended): for consecutive iterations entered in the NORMAL state
fetching the same snapshot both times (first iteration not crashing and
staying NORMAL): the second iteration makes no backend call, each of `show`
and `refresh` happens at most once across the pair, and exactly once —
during the first iteration — when the pair begins with info that differs
from the stored snapshot. -/
theorem unchanged_info_never_redrawn_twice (tbl : List (String × String))
    (st : AgentState) (o1 o2 : Oracle) (j : Json)
    (h0 : st.error = false)
    (hf1 : o1.fetch = some j) (hf2 : o2.fetch = some j)
    (hc1 : (step tbl st o1).crashed = none)
    (he1 : (step tbl st o1).state.error = false) :
    (step tbl (step tbl st o1).state o2).events = [] ∧
    countShow (step tbl st o1).events ≤ 1 ∧
    countRefresh (step tbl st o1).events ≤ 1 ∧
    (st.info ≠ j →
      countShow (step tbl st o1).events = 1 ∧
      countRefresh (step tbl st o1).events = 1) := by
  by_cases hne : st.info = j
  · rw [step_fetch_ok_skip tbl st o1 j hf1 hne h0]
    refine ⟨?_, by simp [countShow], by simp [countRefresh], ?_⟩
    · show (step tbl ⟨false, st.info, st.layout, st.errLayout, st.lastRendered⟩
        o2).events = []
      rw [step_fetch_ok_skip tbl
        ⟨false, st.info, st.layout, st.errLayout, st.lastRendered⟩ o2 j hf2 hne
        rfl]
    · intro h'
      exact absurd hne h'
  · rw [step_fetch_ok_changed tbl st o1 j hf1 (Or.inl hne)] at hc1 he1 ⊢
    cases hdr : (display_emoji tbl o1.net st.layout j).result with
    | ok u =>
      cases u
      rw [stepRender_ok st j _ hdr] at he1 ⊢
      rw [display_emoji_ok_events tbl o1.net st.layout j hdr]
      refine ⟨?_, ?_, ?_, ?_⟩
      · rw [step_fetch_ok_skip tbl _ o2 j hf2 rfl rfl]
      · rw [countShow_show_refresh]
      · rw [countRefresh_show_refresh]
      · intro h'
        exact ⟨countShow_show_refresh _, countRefresh_show_refresh _⟩
    | error pe =>
      cases pe with
      | eotd m =>
        rw [stepRender_eotd_fresh st j _ m hdr h0] at he1
        simp at he1
      | keyError k =>
        rw [stepRender_other st j _ _ hdr rfl] at hc1
        simp at hc1
      | typeError m =>
        rw [stepRender_other st j _ _ hdr rfl] at hc1
        simp at hc1
      | decodeError m =>
        rw [stepRender_other st j _ _ hdr rfl] at hc1
        simp at hc1
      | runtimeError m =>
        rw [stepRender_other st j _ _ hdr rfl] at hc1
        simp at hc1
      | nameError n =>
        rw [stepRender_other st j _ _ hdr rfl] at hc1
        simp at hc1

/-- C8 witness: the amended theorem at a concrete pair from the initial
state, both iterations fetching `info0`. -/
theorem unchanged_info_never_redrawn_twice_witness :
    (step tbl0 (step tbl0 (initState 400 200) ⟨some info0, netOK⟩).state
      ⟨some info0, netOK⟩).events = [] ∧
    countShow (step tbl0 (initState 400 200) ⟨some info0, netOK⟩).events ≤ 1 ∧
    countRefresh (step tbl0 (initState 400 200)
      ⟨some info0, netOK⟩).events ≤ 1 ∧
    ((initState 400 200).info ≠ info0 →
      countShow (step tbl0 (initState 400 200) ⟨some info0, netOK⟩).events
        = 1 ∧
      countRefresh (step tbl0 (initState 400 200) ⟨some info0, netOK⟩).events
        = 1) :=
  unchanged_info_never_redrawn_twice tbl0 (initState 400 200)
    ⟨some info0, netOK⟩ ⟨some info0, netOK⟩ info0 rfl rfl rfl (by rfl) (by rfl)
